import Mathlib

/-!
# Verification of the plumber-dispatcher webhook backend

A shallow embedding of `src/main.py`: a FastAPI webhook backend exposing
`/check-service-area`, `/report-emergency`, `/check-availability` and
`/book-appointment` against an external SMS gateway and an external calendar.

External collaborator outcomes (the Google Calendar list/insert calls, the
Twilio SMS send) and ambient process state (whether credentials are
configured, the current time string) are packaged in an explicit `World`
record passed to each handler.  Python exceptions are modelled with an
explicit `PyErr` type: code that may raise returns `Except PyErr _`, and an
uncaught exception surfaces as the `EndpointResult.fault` outcome (FastAPI
would turn it into a 500 response).  FastAPI/pydantic request-body
validation is modelled by explicit parse functions from optional fields; a
failed validation is the `EndpointResult.unprocessable` outcome (HTTP 422).
-/

set_option autoImplicit false

namespace Plumber

/-- A Python exception value, as far as this program can observe one:
`ValueError` (raised by `datetime.fromisoformat`), `KeyError` (raised by
square-bracket dict indexing on a missing key, as in the summary lookup of
the availability handler), and a catch-all for errors raised by the
external API clients. -/
inductive PyErr where
  | valueError (msg : String)
  | keyError (key : String)
  | apiError (msg : String)
  deriving DecidableEq, Repr

/-- Python `str(e)` on an exception: a `ValueError`/API error prints its
message, a `KeyError` prints the missing key wrapped in single quotes. -/
def strPyErr : PyErr → String
  | .valueError m => m
  | .keyError k => "\x27" ++ k ++ "\x27"
  | .apiError m => m

/-! ## Proleptic Gregorian calendar arithmetic (Python `datetime` core) -/

/-- Gregorian leap-year rule, as used by Python `datetime`. -/
def isLeapYear (y : Nat) : Bool :=
  y % 4 = 0 && (y % 100 ≠ 0 || y % 400 = 0)

/-- Number of days in month `m` (1-based) of year `y`. -/
def daysInMonth (y m : Nat) : Nat :=
  if m = 2 then (if isLeapYear y then 29 else 28)
  else if m = 4 ∨ m = 6 ∨ m = 9 ∨ m = 11 then 30
  else 31

/-- Number of days in year `y`. -/
def daysInYear (y : Nat) : Nat :=
  if isLeapYear y then 366 else 365

/-- Days in year `y` strictly before month `m` (1-based). -/
def daysBeforeMonth (y : Nat) : Nat → Nat
  | 0 => 0
  | 1 => 0
  | m + 2 => daysBeforeMonth y (m + 1) + daysInMonth y (m + 1)

/-- Days strictly before year `y` counting from year 1 (proleptic
Gregorian, as in Python `datetime.toordinal`). -/
def daysBeforeYear : Nat → Nat
  | 0 => 0
  | 1 => 0
  | y + 2 => daysBeforeYear (y + 1) + daysInYear (y + 1)

/-- Ordinal day number of the date `y-m-d` (0 for year 1, Jan 1). -/
def dateOrdinal (y m d : Nat) : Nat :=
  daysBeforeYear y + daysBeforeMonth y m + (d - 1)

/-- The calendar date one day after `y-m-d`. -/
def nextDay (y m d : Nat) : Nat × Nat × Nat :=
  if d < daysInMonth y m then (y, m, d + 1)
  else if m < 12 then (y, m + 1, 1)
  else (y + 1, 1, 1)

/-! ## `datetime.datetime` values -/

/-- A Python `datetime.datetime` as this program observes one: wall-clock
fields plus an optional fixed UTC offset in minutes (`none` = naive,
`some o` = `tzinfo` with fixed offset `o`). -/
structure PyDatetime where
  year : Nat
  month : Nat
  day : Nat
  hour : Nat
  minute : Nat
  second : Nat
  offsetMinutes : Option Int
  deriving DecidableEq, Repr

/-- The range checks performed by the `datetime.datetime` constructor. -/
def isValidDT (y mo d h mi s : Nat) : Bool :=
  1 ≤ y && y ≤ 9999 && 1 ≤ mo && mo ≤ 12 && 1 ≤ d && d ≤ daysInMonth y mo &&
    h ≤ 23 && mi ≤ 59 && s ≤ 59

/-- Construct a `PyDatetime`, failing (as the Python constructor raises)
when a field is out of range. -/
def mkDatetime (y mo d h mi s : Nat) (off : Option Int) : Option PyDatetime :=
  if isValidDT y mo d h mi s then some ⟨y, mo, d, h, mi, s, off⟩ else none

/-- Validity of an assembled `PyDatetime`, as guaranteed by `mkDatetime`. -/
def validDT (dt : PyDatetime) : Prop :=
  1 ≤ dt.year ∧ 1 ≤ dt.month ∧ dt.month ≤ 12 ∧ 1 ≤ dt.day ∧
    dt.day ≤ daysInMonth dt.year dt.month ∧ dt.hour ≤ 23

/-! ## `datetime.datetime.fromisoformat` -/

/-- Read exactly `n` decimal digits, accumulating their value. -/
def parseFixedNatAux : Nat → Nat → List Char → Option (Nat × List Char)
  | 0, acc, cs => some (acc, cs)
  | _ + 1, _, [] => none
  | n + 1, acc, c :: cs =>
    if c.isDigit then parseFixedNatAux n (acc * 10 + (c.toNat - 48)) cs else none

/-- Read exactly `n` decimal digits. -/
def parseFixedNat (n : Nat) (cs : List Char) : Option (Nat × List Char) :=
  parseFixedNatAux n 0 cs

/-- Consume one expected character. -/
def expectChar (c : Char) : List Char → Option (List Char)
  | [] => none
  | d :: cs => if d = c then some cs else none

/-- Parse the optional trailing UTC-offset suffix `±HH:MM` (consuming the
whole remainder), yielding the offset in minutes; an empty remainder means
a naive datetime. -/
def parseOffset : List Char → Option (Option Int)
  | [] => some none
  | c :: r =>
    if c = '+' ∨ c = '-' then
      match parseFixedNat 2 r with
      | none => none
      | some (oh, r1) =>
        match expectChar ':' r1 with
        | none => none
        | some r2 =>
          match parseFixedNat 2 r2 with
          | none => none
          | some (om, r3) =>
            if r3 = [] ∧ oh ≤ 23 ∧ om ≤ 59 then
              some (some ((if c = '-' then (-1 : Int) else 1) * (oh * 60 + om : Nat)))
            else none
    else none

/-- Parse the time-of-day part `HH[:MM[:SS]]` followed by an optional
offset suffix. -/
def parseTime (cs : List Char) : Option (Nat × Nat × Nat × Option Int) :=
  match parseFixedNat 2 cs with
  | none => none
  | some (h, r) =>
    match r with
    | ':' :: r2 =>
      match parseFixedNat 2 r2 with
      | none => none
      | some (mi, r3) =>
        match r3 with
        | ':' :: r4 =>
          match parseFixedNat 2 r4 with
          | none => none
          | some (s, r5) =>
            match parseOffset r5 with
            | none => none
            | some off => some (h, mi, s, off)
        | _ =>
          match parseOffset r3 with
          | none => none
          | some off => some (h, mi, 0, off)
    | _ =>
      match parseOffset r with
      | none => none
      | some off => some (h, 0, 0, off)

/-- Parse the textual fields of an ISO-8601 string
`YYYY-MM-DD[<sep>HH[:MM[:SS]][±HH:MM]]`.  This is the grammar accepted by
`datetime.fromisoformat` restricted to whole seconds (fractional-second
suffixes are not modelled); as in Python, the date/time separator may be
any single character and a date-only string gets midnight. -/
def parseIsoFields (s : String) : Option (Nat × Nat × Nat × Nat × Nat × Nat × Option Int) :=
  match parseFixedNat 4 s.toList with
  | none => none
  | some (y, r1) =>
    match expectChar '-' r1 with
    | none => none
    | some r2 =>
      match parseFixedNat 2 r2 with
      | none => none
      | some (mo, r3) =>
        match expectChar '-' r3 with
        | none => none
        | some r4 =>
          match parseFixedNat 2 r4 with
          | none => none
          | some (d, r5) =>
            match r5 with
            | [] => some (y, mo, d, 0, 0, 0, none)
            | _sep :: r6 =>
              match parseTime r6 with
              | none => none
              | some (h, mi, sec, off) => some (y, mo, d, h, mi, sec, off)

/-- `datetime.fromisoformat`, successful case: parse the fields and run the
range-checked constructor. -/
def fromisoformatCore (s : String) : Option PyDatetime :=
  match parseIsoFields s with
  | none => none
  | some (y, mo, d, h, mi, sec, off) => mkDatetime y mo d h mi sec off

/-- `datetime.fromisoformat` as the program calls it: any failure raises a
`ValueError` (Python words the message slightly differently for
out-of-range fields; we keep the malformed-string wording throughout). -/
def fromisoformat (s : String) : Except PyErr PyDatetime :=
  match fromisoformatCore s with
  | some dt => .ok dt
  | none => .error (.valueError ("Invalid isoformat string: \x27" ++ s ++ "\x27"))

/-- `start_dt + datetime.timedelta(hours=1)`: wall-clock fields advance by
one hour with calendar carry; the `tzinfo` is unchanged. -/
def addOneHour (dt : PyDatetime) : PyDatetime :=
  if dt.hour < 23 then { dt with hour := dt.hour + 1 }
  else
    let ymd := nextDay dt.year dt.month dt.day
    { dt with year := ymd.1, month := ymd.2.1, day := ymd.2.2, hour := 0 }

/-! ## `datetime.datetime.isoformat` -/

/-- Zero-pad to two digits. -/
def pad2 (n : Nat) : String :=
  if n < 10 then "0" ++ toString n else toString n

/-- Zero-pad to four digits. -/
def pad4 (n : Nat) : String :=
  if n < 10 then "000" ++ toString n
  else if n < 100 then "00" ++ toString n
  else if n < 1000 then "0" ++ toString n
  else toString n

/-- The `±HH:MM` suffix `isoformat` prints for an aware datetime (empty
for a naive one). -/
def offsetSuffix : Option Int → String
  | none => ""
  | some o =>
    (if o < 0 then "-" else "+") ++ pad2 (o.natAbs / 60) ++ ":" ++ pad2 (o.natAbs % 60)

/-- `datetime.isoformat()` with zero microseconds: `YYYY-MM-DDTHH:MM:SS`
plus the offset suffix when aware. -/
def isoformat (dt : PyDatetime) : String :=
  pad4 dt.year ++ "-" ++ pad2 dt.month ++ "-" ++ pad2 dt.day ++ "T" ++
    pad2 dt.hour ++ ":" ++ pad2 dt.minute ++ ":" ++ pad2 dt.second ++
    offsetSuffix dt.offsetMinutes

/-- Python `str.replace` specialised to the call the program makes,
`data.start_time.replace("Z", "+00:00")`: every occurrence of the
character `Z` is replaced (Python replaces all occurrences, not only a
trailing one). -/
def replaceZ (s : String) : String :=
  String.mk (s.toList.foldr (fun c acc => if c = 'Z' then "+00:00".toList ++ acc else c :: acc) [])

/-- The instant a datetime denotes, in seconds, relative to the epoch
0001-01-01T00:00:00+00:00 (a naive datetime is read at offset zero). -/
def instantSeconds (dt : PyDatetime) : Int :=
  (dateOrdinal dt.year dt.month dt.day : Int) * 86400 + dt.hour * 3600 +
    dt.minute * 60 + dt.second - (dt.offsetMinutes.getD 0) * 60

/-! ## Request models (the pydantic classes) -/

/-- `EmergencyReport`: every field optional with a default. -/
structure EmergencyReport where
  customer_name : String
  customer_phone : String
  issue_type : String
  severity : String
  zip_code : String
  deriving DecidableEq, Repr

/-- `AvailabilityRequest`: `day` is a required string field. -/
structure AvailabilityRequest where
  day : String
  deriving DecidableEq, Repr

/-- `BookingRequest`: all three fields are required strings. -/
structure BookingRequest where
  customer_name : String
  customer_phone : String
  start_time : String
  deriving DecidableEq, Repr

/-- Pydantic validation of an `EmergencyReport` body: absent fields take
their declared defaults, so validation always succeeds. -/
def parseEmergencyReport (name phone issue sev zip : Option String) : EmergencyReport :=
  ⟨name.getD "Unknown Caller", phone.getD "No Number Provided",
    issue.getD "Unspecified Emergency", sev.getD "High", zip.getD "Unknown Area"⟩

/-- Pydantic validation of an `AvailabilityRequest` body: the required
`day` field must be present. -/
def parseAvailabilityRequest (day : Option String) : Option AvailabilityRequest :=
  day.map AvailabilityRequest.mk

/-- Pydantic validation of a `BookingRequest` body: all three required
fields must be present. -/
def parseBookingRequest (name phone start : Option String) : Option BookingRequest :=
  match name, phone, start with
  | some n, some p, some s => some ⟨n, p, s⟩
  | _, _, _ => none

/-! ## Responses, calendar data and the world -/

/-- The `{"status": ..., "message": ...}` dictionaries the calendar and
emergency handlers return. -/
structure StatusResponse where
  status : String
  message : String
  deriving DecidableEq, Repr

/-- The `{"result": ..., "message": ...}` dictionary of
`/check-service-area`. -/
structure AreaResponse where
  result : String
  message : String
  deriving DecidableEq, Repr

/-- An event item returned by the calendar list call, restricted to the
fields the program reads: `e["start"].get("dateTime")` (absent when the
event is all-day) and `e["summary"]` (indexed directly, so absence raises
a `KeyError`). -/
structure GCalEvent where
  startDateTime : Option String
  summary : Option String
  deriving DecidableEq, Repr

/-- The parameters the availability handler passes to
`service.events().list(...)`.  There is no `timeMax` parameter at all: the
query has no upper time bound. -/
structure ListParams where
  calendarId : String
  timeMin : String
  maxResults : Nat
  singleEvents : Bool
  orderBy : String
  deriving DecidableEq, Repr

/-- The `{"dateTime": ..., "timeZone": ...}` dictionaries inside an event
body. -/
structure EventTime where
  dateTime : String
  timeZone : String
  deriving DecidableEq, Repr

/-- The event body `/book-appointment` passes to
`service.events().insert(...)`. -/
structure EventBody where
  summary : String
  description : String
  start : EventTime
  end_ : EventTime
  deriving DecidableEq, Repr

/-- Instrumentation of a `/book-appointment` run: whether
`datetime.fromisoformat` was reached, and the body handed to the calendar
insert call when that call was made. -/
structure BookTrace where
  parseAttempted : Bool
  insertBody : Option EventBody
  deriving DecidableEq, Repr

/-- Ambient process state and collaborator behaviour for one request:
whether Google credentials were configured at startup (`creds` non-`None`),
the `datetime.utcnow().isoformat()` string, the outcome the calendar list
and insert calls would have, whether the Twilio credentials are set, and
the outcome the SMS send would have. -/
structure World where
  credsPresent : Bool
  now : String
  queryResult : Except PyErr (List GCalEvent)
  insertResult : Except PyErr Unit
  twilioConfigured : Bool
  smsResult : Except PyErr Unit

/-- What an HTTP call to an endpoint produces: a 422 validation rejection
from pydantic, a structured JSON result from the handler, or an uncaught
exception propagating out of the handler (FastAPI's 500). -/
inductive EndpointResult where
  | unprocessable
  | ok (r : StatusResponse)
  | fault (e : PyErr)
  deriving DecidableEq, Repr

/-- `r` is an error response rather than a success: a 422 validation
rejection or a structured result whose status field is `"error"`. -/
def isErrorResult : EndpointResult → Bool
  | .unprocessable => true
  | .ok r => r.status = "error"
  | .fault _ => false

/-! ## Handlers -/

/-- The fixed service-area list `SERVICE_AREA_ZIPS`. -/
def SERVICE_AREA_ZIPS : List String :=
  ["15201", "15202", "15203", "15212", "15213", "15222", "15232"]

/-- The `/check-service-area` handler. -/
def check_service_area (zip_code : String) : AreaResponse :=
  if zip_code ∈ SERVICE_AREA_ZIPS then
    ⟨"authorized", "You are in our service area."⟩
  else
    ⟨"out_of_area", "Unfortunately, we do not service that zip code."⟩

/-- The `/report-emergency` handler: if the Twilio credentials are set the
SMS send is attempted inside a `try` whose `except` only prints; the
success response is returned on every path. -/
def report_emergency (w : World) (_data : EmergencyReport) : StatusResponse :=
  match (if w.twilioConfigured then w.smsResult else .ok ()) with
  | .ok _ => ⟨"success", "Dispatcher alerted."⟩
  | .error _ => ⟨"success", "Dispatcher alerted."⟩

/-- The `/report-emergency` endpoint including body validation (which
always succeeds: every field has a default). -/
def emergencyEndpoint (w : World) (name phone issue sev zip : Option String) :
    EndpointResult :=
  .ok (report_emergency w (parseEmergencyReport name phone issue sev zip))

/-- Formatting of one event in the busy message:
the start dateTime with default `"All Day"`, then the summary in
parentheses — the summary is a plain dict index, raising `KeyError` when
absent. -/
def formatEvent (e : GCalEvent) : Except PyErr String :=
  match e.summary with
  | none => .error (.keyError "summary")
  | some s => .ok ((e.startDateTime.getD "All Day") ++ " (" ++ s ++ ")")

/-- The list comprehension over the returned events: formats each event in
order, raising at the first event whose summary is missing. -/
def formatEvents : List GCalEvent → Except PyErr (List String)
  | [] => .ok []
  | e :: es =>
    match formatEvent e with
    | .error err => .error err
    | .ok s =>
      match formatEvents es with
      | .error err => .error err
      | .ok rest => .ok (s :: rest)

/-- The `/check-availability` handler.  Returns the outcome (the handler
body has no `try`, so a failing list call or a `KeyError` from the
formatting comprehension escapes as an exception) together with the list
parameters used when a query was made. -/
def check_availability (w : World) (_data : AvailabilityRequest) :
    Except PyErr StatusResponse × Option ListParams :=
  if w.credsPresent = false then
    (.ok ⟨"error", "Calendar system is offline."⟩, none)
  else
    let params : ListParams := ⟨"primary", w.now ++ "Z", 10, true, "startTime"⟩
    match w.queryResult with
    | .error e => (.error e, some params)
    | .ok events =>
      if events.isEmpty then
        (.ok ⟨"free", "I am completely wide open for the next 2 days."⟩, some params)
      else
        match formatEvents events with
        | .error e => (.error e, some params)
        | .ok parts =>
          (.ok ⟨"busy", "I have appointments at these times: " ++
            String.intercalate ", " parts ++ ". Any other time is good."⟩, some params)

/-- The `/check-availability` endpoint: pydantic validation, then the
handler; an exception escaping the handler is a fault to the caller. -/
def availabilityEndpoint (w : World) (day : Option String) :
    EndpointResult × Option ListParams :=
  match parseAvailabilityRequest day with
  | none => (.unprocessable, none)
  | some req =>
    match check_availability w req with
    | (.ok r, p) => (.ok r, p)
    | (.error e, p) => (.fault e, p)

/-- The `/book-appointment` handler.  The credentials check precedes the
`try` block; inside the `try`, the start time is parsed, the one-hour slot
and event body are built, and the insert call runs; the `except` turns any
of those failures into an error response embedding `str(e)`. -/
def book_appointment (w : World) (data : BookingRequest) :
    StatusResponse × BookTrace :=
  if w.credsPresent = false then
    (⟨"error", "Calendar system is offline."⟩, ⟨false, none⟩)
  else
    match fromisoformat (replaceZ data.start_time) with
    | .error e =>
      (⟨"error", "Failed to book: " ++ strPyErr e⟩, ⟨true, none⟩)
    | .ok start_dt =>
      let end_dt := addOneHour start_dt
      let event_body : EventBody :=
        { summary := "PLUMBING: " ++ data.customer_name
          description := "Phone: " ++ data.customer_phone
          start := ⟨isoformat start_dt, "UTC"⟩
          end_ := ⟨isoformat end_dt, "UTC"⟩ }
      match w.insertResult with
      | .error e =>
        (⟨"error", "Failed to book: " ++ strPyErr e⟩, ⟨true, some event_body⟩)
      | .ok _ =>
        (⟨"success", "Appointment confirmed and added to calendar."⟩,
          ⟨true, some event_body⟩)

/-- The `/book-appointment` endpoint: pydantic validation, then the
handler (which never lets an exception escape). -/
def bookingEndpoint (w : World) (name phone start : Option String) :
    EndpointResult × BookTrace :=
  match parseBookingRequest name phone start with
  | none => (.unprocessable, ⟨false, none⟩)
  | some req =>
    let rt := book_appointment w req
    (.ok rt.1, rt.2)

/-! ## Concrete worlds used to exercise the endpoints -/

/-- Credentials configured, empty calendar, all collaborator calls succeed. -/
def wOn : World :=
  ⟨true, "2026-01-10T08:00:00", .ok [], .ok (), false, .ok ()⟩

/-- No Google credentials configured. -/
def wOff : World :=
  ⟨false, "2026-01-10T08:00:00", .ok [], .ok (), false, .ok ()⟩

/-- Credentials configured but the calendar list call fails. -/
def wQFail : World :=
  ⟨true, "2026-01-10T08:00:00", .error (.apiError "503 Service Unavailable"), .ok (), false, .ok ()⟩

/-- Credentials configured; the list call returns one event that has a
start dateTime but no summary field. -/
def wNoSummary : World :=
  ⟨true, "2026-01-10T08:00:00", .ok [⟨some "2026-01-12T09:00:00-05:00", none⟩], .ok (), false, .ok ()⟩

/-- Credentials configured; the list call returns a timed event and an
all-day event, both with summaries. -/
def wBusy : World :=
  ⟨true, "2026-01-10T08:00:00",
    .ok [⟨some "2026-01-12T09:00:00-05:00", some "PLUMBING: Jones"⟩, ⟨none, some "Vacation"⟩],
    .ok (), false, .ok ()⟩

/-- Credentials configured but the calendar insert call fails. -/
def wInsFail : World :=
  ⟨true, "2026-01-10T08:00:00", .ok [], .error (.apiError "insert exploded"), false, .ok ()⟩

/-! ## Calendar arithmetic lemmas -/

theorem one_le_daysInMonth (y m : Nat) : 1 ≤ daysInMonth y m := by
  unfold daysInMonth
  split
  · split <;> omega
  · split <;> omega

theorem daysBeforeMonth_succ (y m : Nat) (hm : 1 ≤ m) :
    daysBeforeMonth y (m + 1) = daysBeforeMonth y m + daysInMonth y m := by
  match m, hm with
  | m + 1, _ => rfl

theorem daysBeforeMonth_thirteen (y : Nat) : daysBeforeMonth y 13 = daysInYear y := by
  cases hy : isLeapYear y <;>
    simp [daysBeforeMonth, daysInMonth, daysInYear, hy]

theorem daysBeforeYear_succ (y : Nat) (hy : 1 ≤ y) :
    daysBeforeYear (y + 1) = daysBeforeYear y + daysInYear y := by
  match y, hy with
  | y + 1, _ => rfl

theorem daysInMonth_twelve (y : Nat) : daysInMonth y 12 = 31 := rfl

theorem dateOrdinal_nextDay (y m d : Nat) (hy : 1 ≤ y) (hm1 : 1 ≤ m) (hm : m ≤ 12)
    (hd1 : 1 ≤ d) (hd : d ≤ daysInMonth y m) :
    dateOrdinal (nextDay y m d).1 (nextDay y m d).2.1 (nextDay y m d).2.2 =
      dateOrdinal y m d + 1 := by
  unfold nextDay
  by_cases h1 : d < daysInMonth y m
  · simp only [h1, if_true]
    unfold dateOrdinal
    omega
  · by_cases h2 : m < 12
    · simp only [h1, if_false, h2, if_true]
      unfold dateOrdinal
      have hstep := daysBeforeMonth_succ y m hm1
      omega
    · have hm12 : m = 12 := by omega
      subst hm12
      have hd31 : d = 31 := by
        have h31 : daysInMonth y 12 = 31 := daysInMonth_twelve y
        omega
      subst hd31
      simp only [h1, if_false, h2]
      unfold dateOrdinal
      have h13 := daysBeforeMonth_thirteen y
      have hstep := daysBeforeYear_succ y hy
      have h12 : daysBeforeMonth y 13 = daysBeforeMonth y 12 + daysInMonth y 12 :=
        daysBeforeMonth_succ y 12 (by omega)
      have h31 : daysInMonth y 12 = 31 := daysInMonth_twelve y
      have hone : daysBeforeMonth (y + 1) 1 = 0 := rfl
      omega

theorem instantSeconds_addOneHour (dt : PyDatetime) (h : validDT dt) :
    instantSeconds (addOneHour dt) = instantSeconds dt + 3600 := by
  obtain ⟨hy, hm1, hm, hd1, hd, hh⟩ := h
  unfold addOneHour
  by_cases hlt : dt.hour < 23
  · simp only [hlt, if_true]
    unfold instantSeconds
    simp only
    push_cast
    ring
  · simp only [hlt, if_false]
    have hord := dateOrdinal_nextDay dt.year dt.month dt.day hy hm1 hm hd1 hd
    have h23 : dt.hour = 23 := by omega
    unfold instantSeconds
    simp only
    rw [hord, h23]
    push_cast
    ring

/-! ## Parser validity lemmas -/

theorem mkDatetime_valid (y mo d h mi s : Nat) (off : Option Int) (dt : PyDatetime)
    (he : mkDatetime y mo d h mi s off = some dt) : validDT dt := by
  unfold mkDatetime at he
  split at he
  · cases he
    rename_i hv
    simp only [isValidDT, Bool.and_eq_true, decide_eq_true_eq] at hv
    unfold validDT
    simp only
    omega
  · cases he

theorem fromisoformatCore_valid (s : String) (dt : PyDatetime)
    (h : fromisoformatCore s = some dt) : validDT dt := by
  unfold fromisoformatCore at h
  cases hp : parseIsoFields s with
  | none => rw [hp] at h; cases h
  | some t =>
    rw [hp] at h
    obtain ⟨y, mo, d, hh, mi, sec, off⟩ := t
    exact mkDatetime_valid y mo d hh mi sec off dt h

theorem fromisoformat_ok_valid (s : String) (dt : PyDatetime)
    (h : fromisoformat s = .ok dt) : validDT dt := by
  unfold fromisoformat at h
  cases hc : fromisoformatCore s with
  | none => rw [hc] at h; cases h
  | some dt2 =>
    rw [hc] at h
    cases h
    exact fromisoformatCore_valid s _ hc

example : fromisoformat (replaceZ "2026-01-12T15:00:00Z") =
    .ok ⟨2026, 1, 12, 15, 0, 0, some 0⟩ := by rfl

example : isoformat ⟨2026, 1, 12, 15, 0, 0, some 0⟩ = "2026-01-12T15:00:00+00:00" := by rfl

example : isoformat (addOneHour ⟨2026, 1, 12, 15, 0, 0, some 0⟩) =
    "2026-01-12T16:00:00+00:00" := by rfl

example : fromisoformatCore "bad" = none := by rfl

example : fromisoformat "nope" =
    .error (.valueError "Invalid isoformat string: \x27nope\x27") := by rfl

/-! ## Claims -/

/-- C6: every zip code string in the fixed service-area set gets result
`authorized` from `/check-service-area`; every other zip code string gets
result `out_of_area`. -/
theorem C6_service_area_membership (z : String) :
    (z ∈ SERVICE_AREA_ZIPS →
      check_service_area z = ⟨"authorized", "You are in our service area."⟩) ∧
    (z ∉ SERVICE_AREA_ZIPS →
      check_service_area z =
        ⟨"out_of_area", "Unfortunately, we do not service that zip code."⟩) := by
  constructor <;> intro h <;> simp [check_service_area, h]

/-- Witness for C6 at the in-area zip `"15201"` and the out-of-area zip
`"99999"`. -/
theorem C6_service_area_membership_witness :
    check_service_area "15201" = ⟨"authorized", "You are in our service area."⟩ ∧
      check_service_area "99999" =
        ⟨"out_of_area", "Unfortunately, we do not service that zip code."⟩ :=
  ⟨(C6_service_area_membership "15201").1 (by decide),
    (C6_service_area_membership "99999").2 (by decide)⟩

/-- C9: `/check-service-area` is a pure, deterministic function of the zip
code and the fixed service-area set: its response factors through
membership of the zip code in `SERVICE_AREA_ZIPS`, so any two invocations
with zip codes on the same side of the set agree (in particular, two
invocations with the same zip code always yield the same result). -/
theorem C9_service_area_deterministic (z1 z2 : String)
    (h : z1 ∈ SERVICE_AREA_ZIPS ↔ z2 ∈ SERVICE_AREA_ZIPS) :
    check_service_area z1 = check_service_area z2 := by
  unfold check_service_area
  by_cases h1 : z1 ∈ SERVICE_AREA_ZIPS
  · rw [if_pos h1, if_pos (h.mp h1)]
  · rw [if_neg h1, if_neg (fun h2 => h1 (h.mpr h2))]

/-- Witness for C9 at two concrete out-of-area zip codes. -/
theorem C9_service_area_deterministic_witness :
    check_service_area "00000" = check_service_area "11111" :=
  C9_service_area_deterministic "00000" "11111" (by decide)

/-- C10: `/report-emergency` returns status `success` with the fixed
message "Dispatcher alerted." on every input — the world `w` ranges over
all collaborator behaviours, including a Twilio client whose send raises
(the exception is caught and discarded) — so the `logged` and `error`
statuses are never produced. -/
theorem C10_report_emergency_always_success (w : World)
    (name phone issue sev zip : Option String) :
    emergencyEndpoint w name phone issue sev zip =
      .ok ⟨"success", "Dispatcher alerted."⟩ := by
  unfold emergencyEndpoint report_emergency
  split <;> rfl

/-- C1, counterexample: with credentials configured and a failing calendar
list call (`wQFail`), `/check-availability` does NOT return a structured
`error` result — the handler has no `try`, so the raw exception propagates
to the caller as a fault.  This refutes the claim that the handler catches
query failures. -/
theorem C1_counterexample :
    (availabilityEndpoint wQFail (some "Tuesday")).1 =
        .fault (.apiError "503 Service Unavailable") ∧
      ∀ r, (availabilityEndpoint wQFail (some "Tuesday")).1 ≠ .ok r := by
  constructor
  · rfl
  · intro r h
    cases h

/-- C1, amended: when the calendar client is configured but the calendar
list call fails, the `/check-availability` handler does not catch the
failure — the raw exception propagates to the caller (FastAPI's 500
fault); only the missing-credentials path returns a structured error
result. -/
theorem C1_query_failure_propagates (w : World) (day : String) (e : PyErr)
    (h1 : w.credsPresent = true) (h2 : w.queryResult = .error e) :
    (availabilityEndpoint w (some day)).1 = .fault e := by
  simp [availabilityEndpoint, parseAvailabilityRequest, check_availability, h1, h2]

/-- Witness for the amended C1 at the concrete failing world `wQFail`. -/
theorem C1_query_failure_propagates_witness :
    (availabilityEndpoint wQFail (some "Tuesday")).1 =
      .fault (.apiError "503 Service Unavailable") :=
  C1_query_failure_propagates wQFail "Tuesday" (.apiError "503 Service Unavailable") rfl rfl

/-- C5, counterexample: with credentials unset and an unparsable
start_time, `/book-appointment` returns the offline error without ever
reaching `datetime.fromisoformat` — the credentials check precedes the
`try` block, refuting the claim that the booking path still attempts
parse validation of start_time before reporting the offline error. -/
theorem C5_counterexample :
    (bookingEndpoint wOff (some "Bob") (some "555-0100") (some "not-a-time")).1 =
        .ok ⟨"error", "Calendar system is offline."⟩ ∧
      (bookingEndpoint wOff (some "Bob") (some "555-0100") (some "not-a-time")).2.parseAttempted
        = false := by
  constructor <;> rfl

/-- C5, amended: when calendar credentials are unset, `/check-availability`
and `/book-appointment` both return a structured error status with the
fixed offline message and neither attempts any calendar call; the booking
handler checks the credentials before its `try` block, so parse validation
of start_time is not attempted either. -/
theorem C5_offline_error (w : World) (day name phone start : String)
    (h : w.credsPresent = false) :
    availabilityEndpoint w (some day) =
        (.ok ⟨"error", "Calendar system is offline."⟩, none) ∧
      bookingEndpoint w (some name) (some phone) (some start) =
        (.ok ⟨"error", "Calendar system is offline."⟩, ⟨false, none⟩) := by
  constructor
  · simp [availabilityEndpoint, parseAvailabilityRequest, check_availability, h]
  · simp [bookingEndpoint, parseBookingRequest, book_appointment, h]

/-- Witness for the amended C5 at the credential-less world `wOff`. -/
theorem C5_offline_error_witness :
    availabilityEndpoint wOff (some "Tuesday") =
        (.ok ⟨"error", "Calendar system is offline."⟩, none) ∧
      bookingEndpoint wOff (some "Bob") (some "555-0100") (some "2026-01-12T15:00:00Z") =
        (.ok ⟨"error", "Calendar system is offline."⟩, ⟨false, none⟩) :=
  C5_offline_error wOff "Tuesday" "Bob" "555-0100" "2026-01-12T15:00:00Z" rfl

/-- C7, counterexample: a `/check-availability` request with the `day`
field absent is NOT accepted — `day` is a required pydantic field, so the
request is rejected with a 422 validation error and the handler (and its
calendar query) never runs.  This refutes "every value, including an
absent day field, is accepted". -/
theorem C7_counterexample :
    availabilityEndpoint wOn none = (.unprocessable, none) := rfl

/-- C7, amended: every present string value of `day` is accepted and has
no effect on the response or on the calendar query window — the query
always uses `timeMin = now` (the current instant), `maxResults = 10`, and
carries no upper time bound — but an absent `day` field is rejected by
request validation before the handler runs. -/
theorem C7_day_ignored (w : World) (d1 d2 : String) (h : w.credsPresent = true) :
    availabilityEndpoint w (some d1) = availabilityEndpoint w (some d2) ∧
      (availabilityEndpoint w (some d1)).2 =
        some ⟨"primary", w.now ++ "Z", 10, true, "startTime"⟩ ∧
      availabilityEndpoint w none = (.unprocessable, none) := by
  refine ⟨rfl, ?_, rfl⟩
  simp only [availabilityEndpoint, parseAvailabilityRequest, Option.map_some,
    check_availability, h, Bool.true_eq_false, if_false]
  cases hq : w.queryResult with
  | error e => rfl
  | ok events =>
    by_cases he : events.isEmpty
    · simp [he]
    · simp only [he, if_false]
      cases hm : formatEvents events with
      | error e => rfl
      | ok parts => rfl

/-- Witness for the amended C7 at the concrete world `wOn` and two
distinct day strings. -/
theorem C7_day_ignored_witness :
    availabilityEndpoint wOn (some "Tuesday") = availabilityEndpoint wOn (some "Friday") ∧
      (availabilityEndpoint wOn (some "Tuesday")).2 =
        some ⟨"primary", "2026-01-10T08:00:00" ++ "Z", 10, true, "startTime"⟩ ∧
      availabilityEndpoint wOn none = (.unprocessable, none) :=
  C7_day_ignored wOn "Tuesday" "Friday" rfl

/-- C4: a `/book-appointment` request whose start_time is missing is
rejected by request validation (an error response, HTTP 422), and one
whose start_time does not parse gets a structured `error` status from the
handler; in both cases, and whether or not credentials are configured, no
calendar insert call is made. -/
theorem C4_booking_invalid_start (w : World) (name phone start : Option String)
    (h : start = none ∨ ∀ s, start = some s → fromisoformatCore (replaceZ s) = none) :
    isErrorResult (bookingEndpoint w name phone start).1 = true ∧
      (bookingEndpoint w name phone start).2.insertBody = none := by
  cases name with
  | none => cases phone <;> cases start <;> simp [bookingEndpoint, parseBookingRequest, isErrorResult]
  | some n =>
    cases phone with
    | none => cases start <;> simp [bookingEndpoint, parseBookingRequest, isErrorResult]
    | some p =>
      cases start with
      | none => simp [bookingEndpoint, parseBookingRequest, isErrorResult]
      | some s =>
        have hc : fromisoformatCore (replaceZ s) = none := by
          rcases h with h | h
          · cases h
          · exact h s rfl
        by_cases hw : w.credsPresent = false
        · simp [bookingEndpoint, parseBookingRequest, book_appointment, isErrorResult, hw]
        · simp [bookingEndpoint, parseBookingRequest, book_appointment, isErrorResult, hw,
            fromisoformat, hc]

/-- Witness for C4: a missing start_time and the unparsable start_time
`"bad"`, against the configured world `wOn`. -/
theorem C4_booking_invalid_start_witness :
    (isErrorResult (bookingEndpoint wOn (some "Bob") (some "555-0100") none).1 = true ∧
      (bookingEndpoint wOn (some "Bob") (some "555-0100") none).2.insertBody = none) ∧
    (isErrorResult (bookingEndpoint wOn (some "Bob") (some "555-0100") (some "bad")).1 = true ∧
      (bookingEndpoint wOn (some "Bob") (some "555-0100") (some "bad")).2.insertBody = none) :=
  ⟨C4_booking_invalid_start wOn (some "Bob") (some "555-0100") none (Or.inl rfl),
    C4_booking_invalid_start wOn (some "Bob") (some "555-0100") (some "bad")
      (Or.inr (fun s hs => by cases hs; rfl))⟩

/-- Formatting events that all carry a summary never raises: it yields
the formatted list. -/
theorem formatEvents_of_summaries (events : List GCalEvent)
    (h : ∀ e ∈ events, e.summary ≠ none) :
    formatEvents events = .ok (events.map fun e =>
      (e.startDateTime.getD "All Day") ++ " (" ++ (e.summary.getD "") ++ ")") := by
  induction events with
  | nil => rfl
  | cons e es ih =>
    have he : e.summary ≠ none := h e (by simp)
    obtain ⟨s, hs⟩ := Option.ne_none_iff_exists.mp he
    have ihe := ih (fun x hx => h x (by simp [hx]))
    simp [formatEvents, formatEvent, ← hs, ihe]

/-- C3, counterexample: with the calendar returning one event that lacks a
summary (`wNoSummary`), `/check-availability` does not return a `busy`
message with "Busy" substituted — the direct dict index on the summary
raises a `KeyError` that propagates to the caller.  (The code's only
default, "All Day", applies to the start dateTime, not to the summary.) -/
theorem C3_counterexample :
    (availabilityEndpoint wNoSummary (some "Tuesday")).1 =
        .fault (.keyError "summary") ∧
      ∀ r, (availabilityEndpoint wNoSummary (some "Tuesday")).1 ≠ .ok r := by
  constructor
  · rfl
  · intro r h
    cases h

/-- C3, amended: with the calendar client configured, zero returned events
yield status `free`; a non-empty list of events, each carrying a summary,
yields status `busy` with the comma-joined list of
"<start dateTime, or All Day when absent> (<summary>)" embedded in the
message.  (An event without a summary instead raises an uncaught
`KeyError`; no "Busy" substitution exists.) -/
theorem C3_free_busy (w : World) (day : String) (events : List GCalEvent)
    (h1 : w.credsPresent = true) (h2 : w.queryResult = .ok events)
    (h3 : ∀ e ∈ events, e.summary ≠ none) :
    (events = [] →
      (availabilityEndpoint w (some day)).1 =
        .ok ⟨"free", "I am completely wide open for the next 2 days."⟩) ∧
    (events ≠ [] →
      (availabilityEndpoint w (some day)).1 =
        .ok ⟨"busy", "I have appointments at these times: " ++
          String.intercalate ", " (events.map fun e =>
            (e.startDateTime.getD "All Day") ++ " (" ++ (e.summary.getD "") ++ ")") ++
          ". Any other time is good."⟩) := by
  constructor
  · intro hnil
    subst hnil
    simp [availabilityEndpoint, parseAvailabilityRequest, check_availability, h1, h2]
  · intro hne
    have hm := formatEvents_of_summaries events h3
    have hemp : events.isEmpty = false := by
      cases events with
      | nil => cases hne rfl
      | cons a l => rfl
    simp [availabilityEndpoint, parseAvailabilityRequest, check_availability, h1, h2, hemp, hm]

/-- Witness for the amended C3: the empty calendar `wOn` gives `free`, and
the two-event calendar `wBusy` gives the `busy` message listing a timed
event and an all-day event. -/
theorem C3_free_busy_witness :
    (availabilityEndpoint wOn (some "Tuesday")).1 =
        .ok ⟨"free", "I am completely wide open for the next 2 days."⟩ ∧
      (availabilityEndpoint wBusy (some "Tuesday")).1 =
        .ok ⟨"busy", "I have appointments at these times: " ++
          "2026-01-12T09:00:00-05:00 (PLUMBING: Jones), All Day (Vacation)" ++
          ". Any other time is good."⟩ :=
  ⟨(C3_free_busy wOn "Tuesday" [] rfl rfl (by decide)).1 rfl,
    (C3_free_busy wBusy "Tuesday"
        [⟨some "2026-01-12T09:00:00-05:00", some "PLUMBING: Jones"⟩, ⟨none, some "Vacation"⟩]
        rfl rfl (by decide)).2 (by decide)⟩

/-- C8, counterexample: the error message of a failed booking is NOT
generic — for the unparsable start_time "bad" it is exactly
"Failed to book: " followed by `str(e)` of the raw `ValueError`, and it
differs from the message produced by a different unparsable input, so it
exposes the underlying error rather than being a fixed generic string. -/
theorem C8_counterexample :
    (bookingEndpoint wOn (some "Bob") (some "555-0100") (some "bad")).1 =
        .ok ⟨"error", "Failed to book: " ++
          strPyErr (.valueError "Invalid isoformat string: \x27bad\x27")⟩ ∧
      (bookingEndpoint wOn (some "Bob") (some "555-0100") (some "bad")).1 ≠
        (bookingEndpoint wOn (some "Bob") (some "555-0100") (some "worse")).1 := by
  constructor
  · rfl
  · decide

/-- C8, amended: the `/book-appointment` handler catches every parse and
insertion failure and returns a structured `error` result — it never
raises to the caller — but the returned message is "Failed to book: "
followed by the exception's own text, so the underlying raw error is
exposed in the message rather than replaced by a generic one. -/
theorem C8_booking_catches (w : World) (name phone start : Option String) :
    (∀ e, (bookingEndpoint w name phone start).1 ≠ .fault e) ∧
    (∀ req e, parseBookingRequest name phone start = some req →
      w.credsPresent = true →
      fromisoformat (replaceZ req.start_time) = .error e →
      (bookingEndpoint w name phone start).1 =
        .ok ⟨"error", "Failed to book: " ++ strPyErr e⟩) ∧
    (∀ req dt e, parseBookingRequest name phone start = some req →
      w.credsPresent = true →
      fromisoformat (replaceZ req.start_time) = .ok dt →
      w.insertResult = .error e →
      (bookingEndpoint w name phone start).1 =
        .ok ⟨"error", "Failed to book: " ++ strPyErr e⟩) := by
  refine ⟨?_, ?_, ?_⟩
  · intro e
    unfold bookingEndpoint
    cases hp : parseBookingRequest name phone start with
    | none => simp
    | some req =>
      simp only
      unfold book_appointment
      by_cases hw : w.credsPresent = false
      · simp [hw]
      · simp only [hw, if_false]
        cases hf : fromisoformat (replaceZ req.start_time) with
        | error e2 => simp
        | ok dt => cases hi : w.insertResult <;> simp
  · intro req e hp hw hf
    simp [bookingEndpoint, hp, book_appointment, hw, hf]
  · intro req dt e hp hw hf hi
    simp [bookingEndpoint, hp, book_appointment, hw, hf, hi]

/-- Witness for the amended C8: no fault at a concrete input, the parse
failure for "bad", and the insert-call failure of the world `wInsFail`. -/
theorem C8_booking_catches_witness :
    (bookingEndpoint wOn (some "Ann") (some "555-0100") (some "2026-01-12T15:00:00Z")).1 ≠
        .fault (.apiError "boom") ∧
      (bookingEndpoint wOn (some "Ann") (some "555-0100") (some "bad-time")).1 =
        .ok ⟨"error", "Failed to book: " ++
          strPyErr (.valueError "Invalid isoformat string: \x27bad-time\x27")⟩ ∧
      (bookingEndpoint wInsFail (some "Ann") (some "555-0100") (some "2026-01-12T15:00:00Z")).1 =
        .ok ⟨"error", "Failed to book: " ++ strPyErr (.apiError "insert exploded")⟩ :=
  ⟨(C8_booking_catches wOn (some "Ann") (some "555-0100")
        (some "2026-01-12T15:00:00Z")).1 (.apiError "boom"),
    (C8_booking_catches wOn (some "Ann") (some "555-0100") (some "bad-time")).2.1
      ⟨"Ann", "555-0100", "bad-time"⟩ (.valueError "Invalid isoformat string: \x27bad-time\x27")
      rfl rfl rfl,
    (C8_booking_catches wInsFail (some "Ann") (some "555-0100")
        (some "2026-01-12T15:00:00Z")).2.2
      ⟨"Ann", "555-0100", "2026-01-12T15:00:00Z"⟩ ⟨2026, 1, 12, 15, 0, 0, some 0⟩
      (.apiError "insert exploded") rfl rfl rfl rfl⟩

/-- C2: whenever the start_time string parses (after the Z-normalisation
the code applies), the event body handed to the calendar insert call has
summary "PLUMBING: " followed by the customer name, start and end both
stamped with the UTC timeZone, start dateTime the parsed instant and end
dateTime the parsed instant plus exactly one hour (3600 seconds, with full
calendar carry); in particular start_time "2026-01-12T15:00:00Z" yields
start 2026-01-12T15:00:00+00:00 and end 2026-01-12T16:00:00+00:00. -/
theorem C2_booking_slot :
    (∀ (w : World) (data : BookingRequest) (dt : PyDatetime),
      w.credsPresent = true →
      fromisoformat (replaceZ data.start_time) = .ok dt →
      ∃ b, (book_appointment w data).2.insertBody = some b ∧
        b.summary = "PLUMBING: " ++ data.customer_name ∧
        b.start.timeZone = "UTC" ∧ b.end_.timeZone = "UTC" ∧
        b.start.dateTime = isoformat dt ∧
        b.end_.dateTime = isoformat (addOneHour dt) ∧
        instantSeconds (addOneHour dt) = instantSeconds dt + 3600) ∧
    (book_appointment wOn ⟨"Alice", "555-0101", "2026-01-12T15:00:00Z"⟩).2.insertBody =
      some ⟨"PLUMBING: Alice", "Phone: 555-0101",
        ⟨"2026-01-12T15:00:00+00:00", "UTC"⟩, ⟨"2026-01-12T16:00:00+00:00", "UTC"⟩⟩ := by
  constructor
  · intro w data dt h1 h2
    have hsec : instantSeconds (addOneHour dt) = instantSeconds dt + 3600 :=
      instantSeconds_addOneHour dt (fromisoformat_ok_valid _ dt h2)
    refine ⟨{ summary := "PLUMBING: " ++ data.customer_name
              description := "Phone: " ++ data.customer_phone
              start := ⟨isoformat dt, "UTC"⟩
              end_ := ⟨isoformat (addOneHour dt), "UTC"⟩ },
      ?_, rfl, rfl, rfl, rfl, rfl, hsec⟩
    unfold book_appointment
    simp only [h1, Bool.true_eq_false, if_false, h2]
    cases hi : w.insertResult with
    | error e => rfl
    | ok u => rfl
  · rfl

/-- Witness for C2 at the spec's own example: customer Alice, start_time
"2026-01-12T15:00:00Z", against the configured world `wOn`. -/
theorem C2_booking_slot_witness :
    ∃ b, (book_appointment wOn ⟨"Alice", "555-0101", "2026-01-12T15:00:00Z"⟩).2.insertBody
        = some b ∧
      b.summary = "PLUMBING: " ++ "Alice" ∧
      b.start.timeZone = "UTC" ∧ b.end_.timeZone = "UTC" ∧
      b.start.dateTime = isoformat ⟨2026, 1, 12, 15, 0, 0, some 0⟩ ∧
      b.end_.dateTime = isoformat (addOneHour ⟨2026, 1, 12, 15, 0, 0, some 0⟩) ∧
      instantSeconds (addOneHour ⟨2026, 1, 12, 15, 0, 0, some 0⟩) =
        instantSeconds ⟨2026, 1, 12, 15, 0, 0, some 0⟩ + 3600 :=
  C2_booking_slot.1 wOn ⟨"Alice", "555-0101", "2026-01-12T15:00:00Z"⟩
    ⟨2026, 1, 12, 15, 0, 0, some 0⟩ rfl rfl

end Plumber
